import Mathlib

/-!
Shallow embedding of the `circuitbreaker` Caddy middleware
(`src/circuitbreaker.go`) and a verification of its specification.

Machine integers: Go `int`/`int64` are modelled as `Int`, `float64`
thresholds and ratios as `ℚ`, `time.Duration` as `Int` nanoseconds,
latency samples as `Nat` nanoseconds. The third-party metrics library
(`vulcand/oxy/memmetrics`) is not part of the repository tree; its
observable operations are modelled from the specification, as the spec
itself prescribes for implementers.
-/

namespace CircuitBreaker

/-- One recorded request outcome: the status code handed to
`RecordMetric` and the measured latency in nanoseconds. -/
structure Sample where
  statusCode : Int
  latency : Nat
deriving Repr, DecidableEq

/-- Modelled from the spec: the Request Metrics Aggregator
(`memmetrics.RTMetrics`, external to the repository) keeps the recent
outcome samples; the rolling-window ageing strategy is an
implementation choice, so the model keeps all recorded samples and is
faithful for the observable operations of spec §4.3. -/
structure RTMetrics where
  samples : List Sample
deriving Repr, DecidableEq

/-- Modelled from the spec: `Record(statusCode, latency)` adds one
sample; aggregates update immediately. -/
def RTMetrics.Record (m : RTMetrics) (statusCode : Int) (latency : Nat) : RTMetrics :=
  ⟨m.samples ++ [⟨statusCode, latency⟩]⟩

/-- Modelled from the spec: `TotalCount()` is the number of samples in
the window (Go `int64`). -/
def RTMetrics.TotalCount (m : RTMetrics) : Int :=
  m.samples.length

/-- Modelled from the spec: a network-error sample is one whose status
code falls outside the normal 1xx–5xx HTTP range. -/
def isNetworkError (statusCode : Int) : Bool :=
  decide (statusCode < 100) || decide (600 ≤ statusCode)

/-- Modelled from the spec: `NetworkErrorRatio()` is the fraction of
samples that are network errors, 0 when the window is empty. The
float64 division of the two counts is modelled as the exact rational
`mkRat`. -/
def RTMetrics.NetworkErrorRatio (m : RTMetrics) : ℚ :=
  if m.samples.isEmpty then 0
  else mkRat ((m.samples.filter (fun s => isNetworkError s.statusCode)).length : Int)
      (m.samples.length)

/-- Modelled from the spec: `ResponseCodeRatio(loLow, loHigh, hiLow,
hiHigh)` is the fraction of samples with status in `[loLow, loHigh)`
relative to samples with status in `[hiLow, hiHigh)`, 0 when the
denominator is empty; the float64 division is modelled as the exact
rational `mkRat`. -/
def RTMetrics.ResponseCodeRatio (m : RTMetrics) (loLow loHigh hiLow hiHigh : Int) : ℚ :=
  let lo := (m.samples.filter
    (fun s => decide (loLow ≤ s.statusCode) && decide (s.statusCode < loHigh))).length
  let hi := (m.samples.filter
    (fun s => decide (hiLow ≤ s.statusCode) && decide (s.statusCode < hiHigh))).length
  if hi = 0 then 0 else mkRat (lo : Int) hi

/-- Insert into a sorted list of latencies, keeping it sorted. -/
def insertSorted (x : Nat) : List Nat → List Nat
  | [] => [x]
  | y :: ys => if x ≤ y then x :: y :: ys else y :: insertSorted x ys

/-- Insertion sort for latency lists. -/
def sortNat (l : List Nat) : List Nat :=
  l.foldr insertSorted []

/-- Rank (1-based, rounded up) of the quantile `q` among `n` samples:
the number of samples at or below the quantile value. -/
def quantileRank (q : ℚ) (n : Nat) : Nat :=
  (q.num.toNat * n + (q.den - 1)) / q.den

/-- Modelled from the spec: `LatencyAtQuantile(q)` returns the latency
value at percentile `q`, i.e. the sorted sample of rank `⌈q·n⌉`. -/
def latencyAtQuantile (q : ℚ) (lats : List Nat) : Nat :=
  (sortNat lats).getD (quantileRank q lats.length - 1) 0

/-- Modelled from the spec: `LatencyHistogram()` is unavailable when
the window is empty; otherwise it carries the latency samples. -/
def RTMetrics.LatencyHistogram (m : RTMetrics) : Option (List Nat) :=
  if m.samples.isEmpty then none
  else some (m.samples.map (fun s => s.latency))

/-- Modelled from the spec: `Reset()` discards all samples. -/
def RTMetrics.Reset (_m : RTMetrics) : RTMetrics :=
  ⟨[]⟩

/-- Config represents the configuration of a circuit breaker
(`Config` in `circuitbreaker.go`). `Threshold` is the Go `float64`,
`TripDuration` the `caddy.Duration` in nanoseconds, `MinRequests` the
Go `int`. -/
structure Config where
  Threshold : ℚ
  Factor : String
  TripDuration : Int
  MinRequests : Int
deriving Repr, DecidableEq

/-- Internal factor code `factorLatency` (Go `iota + 1`). -/
def factorLatency : Int := 1

/-- Internal factor code `factorErrorRatio`. -/
def factorErrorRatio : Int := 2

/-- Internal factor code `factorStatusCodeRatio`. -/
def factorStatusCodeRatio : Int := 3

/-- Default trip duration: `5 * time.Second` in nanoseconds. -/
def defaultTripDuration : Int := 5 * 1000000000

/-- typeCB handles converting a Config Factor value to the internal
circuit breaker types. -/
def typeCB : String → Option Int
  | "latency" => some factorLatency
  | "error_ratio" => some factorErrorRatio
  | "status_ratio" => some factorStatusCodeRatio
  | _ => none

/-- Simple implements circuit breaking functionality. `tripped` is the
Go atomic `int32` flag (`true` = 1 = Open), `cbFactor` the internal
factor code, `metrics` the aggregator, `config` the embedded Config. -/
structure Simple where
  tripped : Bool
  cbFactor : Int
  metrics : RTMetrics
  config : Config
deriving Repr, DecidableEq

/-- Provision sets up a configured circuit breaker, mirroring
`(*Simple).Provision`: defaults for Factor, MinRequests and
TripDuration, factor validation, fresh metrics, `tripped = 0`. -/
def Provision (cfg : Config) : Except String Simple :=
  let cfg1 := if cfg.Factor = "" then { cfg with Factor := "error_ratio" } else cfg
  let cfg2 := if cfg1.MinRequests = 0 then { cfg1 with MinRequests := 10 } else cfg1
  match typeCB cfg2.Factor with
  | none => Except.error
      ("invalid factor '" ++ cfg2.Factor ++ "', must be one of: latency, error_ratio, status_ratio")
  | some f =>
    let cfg3 := if cfg2.TripDuration = 0 then { cfg2 with TripDuration := defaultTripDuration } else cfg2
    Except.ok { tripped := false, cbFactor := f, metrics := ⟨[]⟩, config := cfg3 }

/-- OK returns whether the circuit breaker is tripped or not
(`tripped == 0`). -/
def Simple.OK (c : Simple) : Bool :=
  !c.tripped

/-- Trip-policy evaluation inside `checkAndSet`: the factor switch.
`none` models the Go early `return` when the latency histogram is
unavailable; `some b` is the computed `isTripped` flag. -/
def evalTripSignal (c : Simple) : Option Bool :=
  if c.cbFactor = factorErrorRatio then
    some (decide (c.metrics.NetworkErrorRatio > c.config.Threshold)
      || decide (c.metrics.ResponseCodeRatio 500 600 0 600 > c.config.Threshold))
  else if c.cbFactor = factorLatency then
    match c.metrics.LatencyHistogram with
    | none => none
    | some hist =>
      some (decide (mkRat (latencyAtQuantile (mkRat 95 100) hist : Int) 1000000 > c.config.Threshold))
  else if c.cbFactor = factorStatusCodeRatio then
    some (decide (c.metrics.ResponseCodeRatio 500 600 0 600 > c.config.Threshold))
  else
    some false

/-- checkAndSet checks the metrics to see if the circuit breaker
should trip. Returns the new breaker state and whether a one-shot
recovery action was armed (the Go `go func` spawned on trip). -/
def checkAndSet (c : Simple) : Simple × Bool :=
  if c.metrics.TotalCount < c.config.MinRequests then (c, false)
  else
    match evalTripSignal c with
    | none => (c, false)
    | some true => ({ c with tripped := true }, true)
    | some false => (c, false)

/-- RecordMetric records a response status code and execution time of
a request, then runs `checkAndSet`. -/
def Simple.RecordMetric (c : Simple) (statusCode : Int) (latency : Nat) : Simple × Bool :=
  checkAndSet { c with metrics := c.metrics.Record statusCode latency }

/-- The body of the recovery action armed on trip: after TripDuration
it unconditionally clears `tripped` and resets the metrics. -/
def recoveryFire (c : Simple) : Simple :=
  { c with tripped := false, metrics := c.metrics.Reset }

/-- The downstream handler (`next`) as observed by `ServeHTTP`: the
status it leaves in the response recorder, the body it streams, and
whether its `ServeHTTP` call returned a non-nil error. -/
structure Downstream where
  status : Int
  body : String
  hasError : Bool
deriving Repr, DecidableEq

/-- Observable outcome of one `(*Simple).ServeHTTP` call: the breaker
state afterwards, the status and body written to the client, how many
times the downstream handler ran, whether a non-nil error was returned
to the caddy framework, and whether a recovery action was armed. -/
structure ServeResult where
  state : Simple
  writtenStatus : Int
  writtenBody : String
  downstreamCalls : Nat
  returnedError : Bool
  recoveryArmed : Bool
deriving Repr, DecidableEq

/-- ServeHTTP implements caddyhttp.MiddlewareHandler: reject with 503
while tripped, otherwise forward through the non-buffering recorder,
measure latency, record the metric (500 on downstream error) and
propagate the downstream error unchanged. The measured elapsed
latency is an input of the model. -/
def Simple.ServeHTTP (c : Simple) (next : Downstream) (latency : Nat) : ServeResult :=
  if !c.OK then
    { state := c
      writtenStatus := 503
      writtenBody := "Service Unavailable - Circuit Breaker Open"
      downstreamCalls := 0
      returnedError := false
      recoveryArmed := false }
  else
    let status := if next.hasError then 500 else next.status
    let rm := c.RecordMetric status latency
    { state := rm.1
      writtenStatus := next.status
      writtenBody := next.body
      downstreamCalls := 1
      returnedError := next.hasError
      recoveryArmed := rm.2 }

/-- Numeric value of a decimal digit character. -/
def digitVal (ch : Char) : Nat :=
  ch.toNat - 48

/-- Value of a digit string (most significant first). -/
def natOfDigits (cs : List Char) : Nat :=
  cs.foldl (fun acc ch => acc * 10 + digitVal ch) 0

/-- Modelled from the spec: an unsigned decimal literal — digits, with
an optional fractional part — as accepted by the numeric literal
parsers external to the repository (`strconv`, `time`). Returns the
exact rational value, `none` on malformed input. -/
def parseDecimal (cs : List Char) : Option ℚ :=
  let intPart := cs.takeWhile Char.isDigit
  let rest := cs.drop intPart.length
  match rest with
  | [] => if intPart.isEmpty then none else some (mkRat (natOfDigits intPart : Int) 1)
  | ch :: tail =>
    if ch == '.' && tail.all Char.isDigit && !(intPart.isEmpty && tail.isEmpty) then
      some (mkRat (natOfDigits (intPart ++ tail) : Int) (10 ^ tail.length))
    else none

/-- Modelled from the spec: `strconv.ParseFloat` (external to the
repository) on the decimal forms the directives use — optional sign,
digits, optional fraction; `none` is the parse failure. -/
def parseGoFloat (s : String) : Option ℚ :=
  match s.toList with
  | [] => none
  | ch :: tail =>
    if ch == '-' then (parseDecimal tail).map (fun q => -q)
    else if ch == '+' then parseDecimal tail
    else parseDecimal (ch :: tail)

/-- Modelled from the spec: `strconv.Atoi` (external to the
repository) — optional sign then digits. -/
def parseGoInt (s : String) : Option Int :=
  let digits : List Char → Option Int := fun cs =>
    if cs.isEmpty || !cs.all Char.isDigit then none
    else some (natOfDigits cs : Int)
  match s.toList with
  | [] => none
  | ch :: tail =>
    if ch == '-' then (digits tail).map Int.neg
    else if ch == '+' then digits tail
    else digits (ch :: tail)

/-- Nanoseconds per duration unit accepted by `time.ParseDuration`. -/
def durationUnit : String → Option Int
  | "ns" => some 1
  | "us" => some 1000
  | "ms" => some 1000000
  | "s" => some 1000000000
  | "m" => some 60000000000
  | "h" => some 3600000000000
  | _ => none

/-- Modelled from the spec: `time.ParseDuration` (external to the
repository) on single-segment duration literals such as `30s`, `2m`,
`100ms`: a decimal number followed by a unit, with `"0"` allowed bare;
the result is the `int64` nanosecond count. -/
def parseGoDuration (s : String) : Option Int :=
  let core : List Char → Option Int := fun cs =>
    let numPart := cs.takeWhile (fun ch => ch.isDigit || ch == '.')
    let unitPart := cs.drop numPart.length
    match parseDecimal numPart, durationUnit (String.mk unitPart) with
    | some q, some mult => some (q.num * mult / (q.den : Int))
    | _, _ => none
  if s = "0" then some 0
  else
    match s.toList with
    | [] => none
    | ch :: tail =>
      if ch == '-' then (core tail).map Int.neg
      else if ch == '+' then core tail
      else core (ch :: tail)

/-- One subdirective inside the `circuit_breaker` block: the directive
name (`d.Val()`) and its argument when one is present on the line
(`d.NextArg()`; `none` models a missing argument). -/
structure Directive where
  name : String
  arg : Option String
deriving Repr, DecidableEq

/-- Modelled from the spec: the dispenser's `ArgErr()` for a directive
missing its argument. -/
def argErrMsg : String :=
  "missing argument"

/-- One iteration of the `UnmarshalCaddyfile` loop: the switch on the
directive name, setting the matching Config field or failing with the
corresponding InvalidConfig error. -/
def unmarshalStep (c : Config) (d : Directive) : Except String Config :=
  match d.name with
  | "threshold" =>
    match d.arg with
    | none => Except.error argErrMsg
    | some s =>
      match parseGoFloat s with
      | none => Except.error ("invalid threshold value: " ++ s)
      | some v => Except.ok { c with Threshold := v }
  | "factor" =>
    match d.arg with
    | none => Except.error argErrMsg
    | some s => Except.ok { c with Factor := s }
  | "trip_duration" =>
    match d.arg with
    | none => Except.error argErrMsg
    | some s =>
      match parseGoDuration s with
      | none => Except.error ("invalid trip_duration: " ++ s)
      | some v => Except.ok { c with TripDuration := v }
  | "min_requests" =>
    match d.arg with
    | none => Except.error argErrMsg
    | some s =>
      match parseGoInt s with
      | none => Except.error ("invalid min_requests value: " ++ s)
      | some v => Except.ok { c with MinRequests := v }
  | other => Except.error ("unrecognized subdirective: " ++ other)

/-- UnmarshalCaddyfile implements caddyfile.Unmarshaler: fold the
block's subdirectives over the Config, stopping at the first error. -/
def UnmarshalCaddyfile (c : Config) : List Directive → Except String Config
  | [] => Except.ok c
  | d :: ds =>
    match unmarshalStep c d with
    | Except.error e => Except.error e
    | Except.ok c2 => UnmarshalCaddyfile c2 ds

/-- Zero-valued Config: the state of the fields before parsing, left
in place for any directive the block does not mention. -/
def zeroConfig : Config :=
  { Threshold := 0, Factor := "", TripDuration := 0, MinRequests := 0 }

/-- Factor string after the Provision defaulting step. -/
def provisionFactor (cfg : Config) : String :=
  if cfg.Factor = "" then "error_ratio" else cfg.Factor

/-- Example configuration: error_ratio, threshold 0.5, minimum 5
requests, 100ms trip duration. -/
def exampleConfig : Config :=
  { Threshold := mkRat 1 2, Factor := "error_ratio", TripDuration := 100000000, MinRequests := 5 }

/-- Example closed breaker holding 3 status-200 and 3 status-500
samples under `exampleConfig`. -/
def exampleClosed : Simple :=
  { tripped := false, cbFactor := factorErrorRatio
    metrics := ⟨[⟨200, 5⟩, ⟨200, 5⟩, ⟨200, 5⟩, ⟨500, 5⟩, ⟨500, 5⟩, ⟨500, 5⟩]⟩
    config := exampleConfig }

/-- Example open (tripped) breaker. -/
def exampleOpen : Simple :=
  { exampleClosed with tripped := true }

/-- Example closed breaker with a single failing sample — below the
MinRequests floor of `exampleConfig`. -/
def exampleLow : Simple :=
  { tripped := false, cbFactor := factorErrorRatio
    metrics := ⟨[⟨500, 5⟩]⟩
    config := exampleConfig }

/-- Example closed status_ratio breaker: threshold 0.4, 3 status-200
and 2 status-503 samples. -/
def exampleStatus : Simple :=
  { tripped := false, cbFactor := factorStatusCodeRatio
    metrics := ⟨[⟨200, 5⟩, ⟨200, 5⟩, ⟨200, 5⟩, ⟨503, 5⟩, ⟨503, 5⟩]⟩
    config := { Threshold := mkRat 2 5, Factor := "status_ratio", TripDuration := 100000000, MinRequests := 5 } }

/-- Example closed latency breaker: threshold 10 (ms), 4 samples at
500ms. -/
def exampleLatency : Simple :=
  { tripped := false, cbFactor := factorLatency
    metrics := ⟨[⟨200, 500000000⟩, ⟨200, 500000000⟩, ⟨200, 500000000⟩, ⟨200, 500000000⟩]⟩
    config := { Threshold := 10, Factor := "latency", TripDuration := 100000000, MinRequests := 5 } }

/-- Example latency breaker with an empty metrics window. -/
def exampleLatencyEmpty : Simple :=
  { tripped := false, cbFactor := factorLatency
    metrics := ⟨[]⟩
    config := { Threshold := 10, Factor := "latency", TripDuration := 100000000, MinRequests := 0 } }

end CircuitBreaker

namespace CircuitBreaker

/-- A breaker reads as OK exactly when the tripped flag is clear. -/
theorem OK_eq_false_iff (s : Simple) : s.OK = false ↔ s.tripped = true := by
  cases h : s.tripped <;> simp [Simple.OK, h]

/-- When the sample floor is met and the factor evaluation yields a
verdict `b`, `checkAndSet` trips exactly when `b` is true, and arms a
recovery action exactly then. -/
theorem checkAndSet_of_some (c : Simple) (b : Bool)
    (hmin : ¬c.metrics.TotalCount < c.config.MinRequests)
    (he : evalTripSignal c = some b)
    (ht : c.tripped = false) :
    ((checkAndSet c).1.tripped = true ↔ b = true) ∧ (checkAndSet c).2 = b := by
  unfold checkAndSet
  rw [if_neg hmin, he]
  cases b
  · simp [ht]
  · simp

/-- Arming a recovery action implies the breaker just tripped. -/
theorem checkAndSet_armed_tripped (c : Simple) (h : (checkAndSet c).2 = true) :
    (checkAndSet c).1.tripped = true := by
  by_cases hg : c.metrics.TotalCount < c.config.MinRequests
  · unfold checkAndSet at h
    rw [if_pos hg] at h
    simp at h
  · cases he : evalTripSignal c with
    | none =>
      unfold checkAndSet at h
      rw [if_neg hg, he] at h
      simp at h
    | some b =>
      cases b
      · unfold checkAndSet at h
        rw [if_neg hg, he] at h
        simp at h
      · unfold checkAndSet
        rw [if_neg hg, he]

/-- C3: for every call to RecordMetric, if after the sample is
recorded the aggregator's TotalCount() is strictly below MinRequests,
the trip policy does nothing: the breaker flag is unchanged and no
recovery action is armed, regardless of factor, threshold or window
contents. -/
theorem recordMetric_below_min_noop (c : Simple) (code : Int) (lat : Nat)
    (h : (c.metrics.Record code lat).TotalCount < c.config.MinRequests) :
    (c.RecordMetric code lat).1.tripped = c.tripped ∧
    (c.RecordMetric code lat).2 = false := by
  unfold Simple.RecordMetric checkAndSet
  rw [if_pos h]
  exact ⟨rfl, rfl⟩

/-- Witness for C3: one failing sample recorded into a window of one
sample, below the floor of 5, leaves the breaker closed. -/
theorem recordMetric_below_min_noop_witness :
    ((exampleLow.metrics.Record 500 1000).TotalCount < exampleLow.config.MinRequests) ∧
    (exampleLow.RecordMetric 500 1000).1.tripped = exampleLow.tripped ∧
    (exampleLow.RecordMetric 500 1000).2 = false :=
  ⟨by decide, recordMetric_below_min_noop exampleLow 500 1000 (by decide)⟩

/-- C10: RecordMetric never transitions the breaker from Open to
Closed — on every call the tripped flag is either unchanged or set;
the recovery action is the operation that clears it. -/
theorem recordMetric_never_closes (c : Simple) (code : Int) (lat : Nat) :
    ((c.RecordMetric code lat).1.tripped = c.tripped ∨
      (c.RecordMetric code lat).1.tripped = true) ∧
    (∀ s : Simple, (recoveryFire s).tripped = false) := by
  refine ⟨?_, fun s => rfl⟩
  unfold Simple.RecordMetric checkAndSet
  split
  · exact Or.inl rfl
  · split
    · exact Or.inl rfl
    · exact Or.inr rfl
    · exact Or.inl rfl

/-- C4: while the breaker is Open, ServeHTTP writes 503 with the fixed
body, never invokes the downstream handler, returns no error, and
leaves the breaker state — the aggregator included — untouched. -/
theorem serveHTTP_open_rejects (c : Simple) (next : Downstream) (lat : Nat)
    (h : c.OK = false) :
    c.ServeHTTP next lat =
      { state := c
        writtenStatus := 503
        writtenBody := "Service Unavailable - Circuit Breaker Open"
        downstreamCalls := 0
        returnedError := false
        recoveryArmed := false } := by
  simp [Simple.ServeHTTP, h]

/-- Witness for C4: a tripped example breaker rejects a request. -/
theorem serveHTTP_open_rejects_witness :
    Simple.OK exampleOpen = false ∧
    exampleOpen.ServeHTTP ⟨200, "hello", false⟩ 1000 =
      { state := exampleOpen
        writtenStatus := 503
        writtenBody := "Service Unavailable - Circuit Breaker Open"
        downstreamCalls := 0
        returnedError := false
        recoveryArmed := false } :=
  ⟨rfl, serveHTTP_open_rejects exampleOpen ⟨200, "hello", false⟩ 1000 rfl⟩

/-- C5: while the breaker is Closed, ServeHTTP invokes the downstream
handler exactly once, records a metric synchronously with effective
status (captured status, or 500 on downstream error) and the measured
latency, and propagates the downstream error unchanged. -/
theorem serveHTTP_closed_forwards (c : Simple) (next : Downstream) (lat : Nat)
    (h : c.OK = true) :
    c.ServeHTTP next lat =
      { state := (c.RecordMetric (if next.hasError then 500 else next.status) lat).1
        writtenStatus := next.status
        writtenBody := next.body
        downstreamCalls := 1
        returnedError := next.hasError
        recoveryArmed := (c.RecordMetric (if next.hasError then 500 else next.status) lat).2 } := by
  simp [Simple.ServeHTTP, h]

/-- Witness for C5: a closed example breaker forwards a request whose
downstream handler fails, records it as a 500, and propagates the
error. -/
theorem serveHTTP_closed_forwards_witness :
    Simple.OK exampleClosed = true ∧
    exampleClosed.ServeHTTP ⟨200, "hello", true⟩ 1000 =
      { state := (exampleClosed.RecordMetric 500 1000).1
        writtenStatus := 200
        writtenBody := "hello"
        downstreamCalls := 1
        returnedError := true
        recoveryArmed := (exampleClosed.RecordMetric 500 1000).2 } :=
  ⟨rfl, serveHTTP_closed_forwards exampleClosed ⟨200, "hello", true⟩ 1000 rfl⟩

/-- C1: on trip the breaker state is Open, so OK() is false; the
recovery action armed at that moment, once it fires after
TripDuration, unconditionally re-closes the breaker and resets the
aggregator whatever happened in between: from any intervening state,
OK() is true and TotalCount() is 0 afterwards. -/
theorem trip_then_recovery (c : Simple) (code : Int) (lat : Nat)
    (h : (c.RecordMetric code lat).2 = true) :
    (c.RecordMetric code lat).1.OK = false ∧
    ∀ s : Simple, (recoveryFire s).OK = true ∧ (recoveryFire s).metrics.TotalCount = 0 := by
  refine ⟨?_, fun s => ⟨rfl, rfl⟩⟩
  rw [OK_eq_false_iff]
  exact checkAndSet_armed_tripped _ h

/-- Witness for C1: recording a seventh sample (status 500) into the
example window trips the breaker; firing the recovery action on any
state — here the tripped one — re-closes it with an empty window. -/
theorem trip_then_recovery_witness :
    (exampleClosed.RecordMetric 500 1000).2 = true ∧
    (exampleClosed.RecordMetric 500 1000).1.OK = false ∧
    (recoveryFire (exampleClosed.RecordMetric 500 1000).1).OK = true ∧
    (recoveryFire (exampleClosed.RecordMetric 500 1000).1).metrics.TotalCount = 0 := by
  have h := trip_then_recovery exampleClosed 500 1000 (by decide)
  exact ⟨by decide, h.1, h.2 (exampleClosed.RecordMetric 500 1000).1⟩

/-- C2: with Factor = error_ratio and the window at the MinRequests
floor after the new sample, a RecordMetric call trips the breaker if
and only if the network-error ratio or the 5xx ratio of the updated
window exceeds Threshold — either signal alone suffices. -/
theorem errorRatio_trips_iff (c : Simple) (code : Int) (lat : Nat)
    (hf : c.cbFactor = factorErrorRatio)
    (ht : c.tripped = false)
    (hmin : c.config.MinRequests ≤ (c.metrics.Record code lat).TotalCount) :
    ((c.RecordMetric code lat).1.OK = false ↔
      (c.metrics.Record code lat).NetworkErrorRatio > c.config.Threshold ∨
      (c.metrics.Record code lat).ResponseCodeRatio 500 600 0 600 > c.config.Threshold) := by
  have he : evalTripSignal { c with metrics := c.metrics.Record code lat } =
      some (decide ((c.metrics.Record code lat).NetworkErrorRatio > c.config.Threshold)
        || decide ((c.metrics.Record code lat).ResponseCodeRatio 500 600 0 600 > c.config.Threshold)) := by
    simp [evalTripSignal, hf]
  have h2 := checkAndSet_of_some { c with metrics := c.metrics.Record code lat } _
    (not_lt.mpr hmin) he ht
  rw [Simple.RecordMetric, OK_eq_false_iff, h2.1]
  simp

/-- Witness for C2: recording a fourth status-500 sample next to three
status-200 ones (ratio 4/7 > 0.5) trips the example breaker; the
network-error ratio stays 0. -/
theorem errorRatio_trips_iff_witness :
    Simple.OK (exampleClosed.RecordMetric 500 1000).1 = false ∧
    ((exampleClosed.metrics.Record 500 1000).NetworkErrorRatio = 0 ∧
      (exampleClosed.metrics.Record 500 1000).ResponseCodeRatio 500 600 0 600 = mkRat 4 7) := by
  have h := errorRatio_trips_iff exampleClosed 500 1000 rfl rfl (by decide)
  exact ⟨h.mpr (Or.inr (by decide)), by decide, by decide⟩

/-- C8: with Factor = status_ratio and the window at the MinRequests
floor after the new sample, a RecordMetric call trips the breaker if
and only if the 5xx ratio of the updated window exceeds Threshold;
network-error ratio and latency do not enter the verdict. -/
theorem statusRatio_trips_iff (c : Simple) (code : Int) (lat : Nat)
    (hf : c.cbFactor = factorStatusCodeRatio)
    (ht : c.tripped = false)
    (hmin : c.config.MinRequests ≤ (c.metrics.Record code lat).TotalCount) :
    ((c.RecordMetric code lat).1.OK = false ↔
      (c.metrics.Record code lat).ResponseCodeRatio 500 600 0 600 > c.config.Threshold) := by
  have he : evalTripSignal { c with metrics := c.metrics.Record code lat } =
      some (decide ((c.metrics.Record code lat).ResponseCodeRatio 500 600 0 600 > c.config.Threshold)) := by
    simp [evalTripSignal, hf, factorErrorRatio, factorLatency, factorStatusCodeRatio]
  have h2 := checkAndSet_of_some { c with metrics := c.metrics.Record code lat } _
    (not_lt.mpr hmin) he ht
  rw [Simple.RecordMetric, OK_eq_false_iff, h2.1]
  simp

/-- Witness for C8: a third status-503 sample next to three status-200
ones (ratio 3/6 > 0.4) trips the example status_ratio breaker. -/
theorem statusRatio_trips_iff_witness :
    Simple.OK (exampleStatus.RecordMetric 503 1000).1 = false ∧
    (exampleStatus.metrics.Record 503 1000).ResponseCodeRatio 500 600 0 600 = mkRat 1 2 := by
  have h := statusRatio_trips_iff exampleStatus 503 1000 rfl rfl (by decide)
  exact ⟨h.mpr (by decide), by decide⟩

/-- C7: with Factor = latency and the window at the MinRequests floor
after the new sample, a RecordMetric call trips the breaker if and
only if the 95th-percentile latency of the window, in milliseconds,
exceeds Threshold; and on a state whose latency histogram is
unavailable (empty window) the evaluation pass is silently skipped —
`checkAndSet` keeps the state and surfaces nothing. -/
theorem latency_trips_iff (c : Simple) (code : Int) (lat : Nat)
    (hf : c.cbFactor = factorLatency)
    (ht : c.tripped = false)
    (hmin : c.config.MinRequests ≤ (c.metrics.Record code lat).TotalCount) :
    ((c.RecordMetric code lat).1.OK = false ↔
      mkRat (latencyAtQuantile (mkRat 95 100)
          ((c.metrics.Record code lat).samples.map (fun s => s.latency)) : Int) 1000000
        > c.config.Threshold) ∧
    (∀ s : Simple, s.cbFactor = factorLatency → s.metrics.samples = [] →
      checkAndSet s = (s, false)) := by
  constructor
  · have hne : (c.metrics.Record code lat).samples.isEmpty = false := by
      simp [RTMetrics.Record]
    have he : evalTripSignal { c with metrics := c.metrics.Record code lat } =
        some (decide (mkRat (latencyAtQuantile (mkRat 95 100)
            ((c.metrics.Record code lat).samples.map (fun s => s.latency)) : Int) 1000000
          > c.config.Threshold)) := by
      simp [evalTripSignal, hf, factorErrorRatio, factorLatency, factorStatusCodeRatio,
        RTMetrics.LatencyHistogram, hne]
    have h2 := checkAndSet_of_some { c with metrics := c.metrics.Record code lat } _
      (not_lt.mpr hmin) he ht
    rw [Simple.RecordMetric, OK_eq_false_iff, h2.1]
    simp
  · intro s hsf hse
    by_cases hg : s.metrics.TotalCount < s.config.MinRequests
    · unfold checkAndSet
      rw [if_pos hg]
    · have he : evalTripSignal s = none := by
        simp [evalTripSignal, hsf, factorErrorRatio, factorLatency, factorStatusCodeRatio,
          RTMetrics.LatencyHistogram, hse]
      unfold checkAndSet
      rw [if_neg hg, he]

/-- Witness for C7: a fifth 500ms sample makes the 95th-percentile
latency 500ms > 10ms and trips the example latency breaker; on the
empty-window latency breaker `checkAndSet` is a no-op. -/
theorem latency_trips_iff_witness :
    Simple.OK (exampleLatency.RecordMetric 200 500000000).1 = false ∧
    checkAndSet exampleLatencyEmpty = (exampleLatencyEmpty, false) := by
  have h := latency_trips_iff exampleLatency 200 500000000 rfl rfl (by decide)
  exact ⟨h.1.mpr (by decide), h.2 exampleLatencyEmpty rfl rfl⟩

/-- Factor lookup fails exactly on strings that are none of the three
valid factor names. -/
theorem typeCB_eq_none_iff (s : String) :
    typeCB s = none ↔ ¬(s = "latency" ∨ s = "error_ratio" ∨ s = "status_ratio") := by
  unfold typeCB
  split <;> simp_all

/-- Provision, normalized: default the factor, then branch on its
validity; on success the remaining defaults are applied to a fresh
breaker. -/
theorem Provision_eq (cfg : Config) :
    Provision cfg =
      (match typeCB (provisionFactor cfg) with
      | none => Except.error
          ("invalid factor '" ++ provisionFactor cfg ++ "', must be one of: latency, error_ratio, status_ratio")
      | some f => Except.ok
          { tripped := false, cbFactor := f, metrics := ⟨[]⟩
            config :=
              { Threshold := cfg.Threshold
                Factor := provisionFactor cfg
                TripDuration := if cfg.TripDuration = 0 then defaultTripDuration else cfg.TripDuration
                MinRequests := if cfg.MinRequests = 0 then 10 else cfg.MinRequests } }) := by
  by_cases hb : cfg.Factor = "" <;>
    by_cases hm : cfg.MinRequests = 0 <;>
      by_cases htd : cfg.TripDuration = 0 <;>
        simp [Provision, provisionFactor, hb, hm, htd]

/-- C6: provisioning defaults Factor to error_ratio when unset,
MinRequests to 10 when zero and TripDuration to 5s when zero; an
invalid factor fails with a message naming the bad value and the three
valid options; on success the breaker starts Closed with an empty
window, so OK() is true immediately. -/
theorem Provision_correct (cfg : Config) :
    (¬(provisionFactor cfg = "latency" ∨ provisionFactor cfg = "error_ratio" ∨
        provisionFactor cfg = "status_ratio") →
      Provision cfg = Except.error
        ("invalid factor '" ++ provisionFactor cfg ++ "', must be one of: latency, error_ratio, status_ratio")) ∧
    ((provisionFactor cfg = "latency" ∨ provisionFactor cfg = "error_ratio" ∨
        provisionFactor cfg = "status_ratio") →
      ∃ s : Simple, Provision cfg = Except.ok s ∧ s.OK = true ∧ s.metrics.TotalCount = 0 ∧
        s.config.Factor = provisionFactor cfg ∧
        s.config.Threshold = cfg.Threshold ∧
        s.config.MinRequests = (if cfg.MinRequests = 0 then 10 else cfg.MinRequests) ∧
        s.config.TripDuration = (if cfg.TripDuration = 0 then defaultTripDuration else cfg.TripDuration)) := by
  constructor
  · intro hinv
    rw [Provision_eq, (typeCB_eq_none_iff (provisionFactor cfg)).mpr hinv]
  · intro hval
    rw [Provision_eq]
    rcases hval with hv | hv | hv <;> rw [hv] <;>
      exact ⟨_, rfl, rfl, rfl, rfl, rfl, rfl, rfl⟩

/-- Witness for C6: a config with every field at its zero value
provisions to a closed error_ratio breaker with MinRequests 10 and
TripDuration 5s; the factor string `invalid` is rejected with the
documented message. -/
theorem Provision_correct_witness :
    (∃ s : Simple, Provision zeroConfig = Except.ok s ∧ s.OK = true ∧ s.metrics.TotalCount = 0 ∧
      s.config.Factor = provisionFactor zeroConfig ∧
      s.config.Threshold = zeroConfig.Threshold ∧
      s.config.MinRequests = (if zeroConfig.MinRequests = 0 then 10 else zeroConfig.MinRequests) ∧
      s.config.TripDuration = (if zeroConfig.TripDuration = 0 then defaultTripDuration else zeroConfig.TripDuration)) ∧
    Provision { zeroConfig with Factor := "invalid" } = Except.error
      "invalid factor 'invalid', must be one of: latency, error_ratio, status_ratio" := by
  constructor
  · exact (Provision_correct zeroConfig).2 (Or.inr (Or.inl rfl))
  · exact (Provision_correct { zeroConfig with Factor := "invalid" }).1 (by decide)

/-- A successful parser step changes no Config field other than the
one its directive names. -/
theorem unmarshalStep_preserves (cfg c2 : Config) (d : Directive)
    (h : unmarshalStep cfg d = Except.ok c2) :
    (d.name ≠ "threshold" → c2.Threshold = cfg.Threshold) ∧
    (d.name ≠ "factor" → c2.Factor = cfg.Factor) ∧
    (d.name ≠ "trip_duration" → c2.TripDuration = cfg.TripDuration) ∧
    (d.name ≠ "min_requests" → c2.MinRequests = cfg.MinRequests) := by
  obtain ⟨name, arg⟩ := d
  by_cases h1 : name = "threshold"
  · subst h1
    cases arg with
    | none => simp [unmarshalStep] at h
    | some s =>
      cases hp : parseGoFloat s with
      | none => simp [unmarshalStep, hp] at h
      | some v =>
        simp [unmarshalStep, hp] at h
        subst h
        simp
  · by_cases h2 : name = "factor"
    · subst h2
      cases arg with
      | none => simp [unmarshalStep] at h
      | some s =>
        simp [unmarshalStep] at h
        subst h
        simp
    · by_cases h3 : name = "trip_duration"
      · subst h3
        cases arg with
        | none => simp [unmarshalStep] at h
        | some s =>
          cases hp : parseGoDuration s with
          | none => simp [unmarshalStep, hp] at h
          | some v =>
            simp [unmarshalStep, hp] at h
            subst h
            simp
      · by_cases h4 : name = "min_requests"
        · subst h4
          cases arg with
          | none => simp [unmarshalStep] at h
          | some s =>
            cases hp : parseGoInt s with
            | none => simp [unmarshalStep, hp] at h
            | some v =>
              simp [unmarshalStep, hp] at h
              subst h
              simp
        · simp [unmarshalStep, h1, h2, h3, h4] at h

/-- A Config field whose directive is absent from the block survives
the whole parse unchanged. -/
theorem UnmarshalCaddyfile_preserves (ds : List Directive) (cfg out : Config)
    (h : UnmarshalCaddyfile cfg ds = Except.ok out) :
    ("threshold" ∉ ds.map Directive.name → out.Threshold = cfg.Threshold) ∧
    ("factor" ∉ ds.map Directive.name → out.Factor = cfg.Factor) ∧
    ("trip_duration" ∉ ds.map Directive.name → out.TripDuration = cfg.TripDuration) ∧
    ("min_requests" ∉ ds.map Directive.name → out.MinRequests = cfg.MinRequests) := by
  induction ds generalizing cfg with
  | nil =>
    simp [UnmarshalCaddyfile] at h
    subst h
    simp
  | cons d ds ih =>
    unfold UnmarshalCaddyfile at h
    cases hstep : unmarshalStep cfg d with
    | error e =>
      rw [hstep] at h
      simp at h
    | ok c2 =>
      rw [hstep] at h
      have hp := unmarshalStep_preserves cfg c2 d hstep
      have hi := ih c2 h
      refine ⟨fun hm => ?_, fun hm => ?_, fun hm => ?_, fun hm => ?_⟩ <;>
        simp only [List.map_cons, List.mem_cons, not_or] at hm
      · rw [hi.1 hm.2, hp.1 (fun he => hm.1 he.symm)]
      · rw [hi.2.1 hm.2, hp.2.1 (fun he => hm.1 he.symm)]
      · rw [hi.2.2.1 hm.2, hp.2.2.1 (fun he => hm.1 he.symm)]
      · rw [hi.2.2.2 hm.2, hp.2.2.2 (fun he => hm.1 he.symm)]

/-- C9: the directive parser fails with InvalidConfig for an
unrecognized directive name (naming the token), for a directive
missing its argument, and for malformed float, integer or duration
literals (carrying the offending literal); on success each mentioned
directive sets exactly its field to the parsed value, and any field
whose directive the block does not mention keeps its prior (zero)
value. -/
theorem UnmarshalCaddyfile_correct :
    (∀ (cfg : Config) (d : Directive),
      d.name ∉ (["threshold", "factor", "trip_duration", "min_requests"] : List String) →
      unmarshalStep cfg d = Except.error ("unrecognized subdirective: " ++ d.name)) ∧
    (∀ (cfg : Config) (name : String),
      name ∈ (["threshold", "factor", "trip_duration", "min_requests"] : List String) →
      unmarshalStep cfg ⟨name, none⟩ = Except.error argErrMsg) ∧
    (∀ (cfg : Config) (s : String), parseGoFloat s = none →
      unmarshalStep cfg ⟨"threshold", some s⟩ = Except.error ("invalid threshold value: " ++ s)) ∧
    (∀ (cfg : Config) (s : String), parseGoDuration s = none →
      unmarshalStep cfg ⟨"trip_duration", some s⟩ = Except.error ("invalid trip_duration: " ++ s)) ∧
    (∀ (cfg : Config) (s : String), parseGoInt s = none →
      unmarshalStep cfg ⟨"min_requests", some s⟩ = Except.error ("invalid min_requests value: " ++ s)) ∧
    (∀ (cfg : Config) (s : String) (v : ℚ), parseGoFloat s = some v →
      unmarshalStep cfg ⟨"threshold", some s⟩ = Except.ok { cfg with Threshold := v }) ∧
    (∀ (cfg : Config) (s : String),
      unmarshalStep cfg ⟨"factor", some s⟩ = Except.ok { cfg with Factor := s }) ∧
    (∀ (cfg : Config) (s : String) (v : Int), parseGoDuration s = some v →
      unmarshalStep cfg ⟨"trip_duration", some s⟩ = Except.ok { cfg with TripDuration := v }) ∧
    (∀ (cfg : Config) (s : String) (v : Int), parseGoInt s = some v →
      unmarshalStep cfg ⟨"min_requests", some s⟩ = Except.ok { cfg with MinRequests := v }) ∧
    (∀ (ds : List Directive) (out : Config),
      UnmarshalCaddyfile zeroConfig ds = Except.ok out →
      ("threshold" ∉ ds.map Directive.name → out.Threshold = zeroConfig.Threshold) ∧
      ("factor" ∉ ds.map Directive.name → out.Factor = zeroConfig.Factor) ∧
      ("trip_duration" ∉ ds.map Directive.name → out.TripDuration = zeroConfig.TripDuration) ∧
      ("min_requests" ∉ ds.map Directive.name → out.MinRequests = zeroConfig.MinRequests)) := by
  refine ⟨?_, ?_, ?_, ?_, ?_, ?_, ?_, ?_, ?_, ?_⟩
  · intro cfg d hm
    obtain ⟨name, arg⟩ := d
    simp only [List.mem_cons, List.not_mem_nil, or_false, not_or] at hm
    obtain ⟨n1, n2, n3, n4⟩ := hm
    unfold unmarshalStep
    split <;> simp_all
  · intro cfg name hm
    simp only [List.mem_cons, List.not_mem_nil, or_false] at hm
    rcases hm with h | h | h | h <;> subst h <;> rfl
  · intro cfg s hp
    simp [unmarshalStep, hp]
  · intro cfg s hp
    simp [unmarshalStep, hp]
  · intro cfg s hp
    simp [unmarshalStep, hp]
  · intro cfg s v hp
    simp [unmarshalStep, hp]
  · intro cfg s
    rfl
  · intro cfg s v hp
    simp [unmarshalStep, hp]
  · intro cfg s v hp
    simp [unmarshalStep, hp]
  · intro ds out h
    exact UnmarshalCaddyfile_preserves ds zeroConfig out h

/-- Witness for C9: the spec's block `threshold 0.7, factor
error_ratio, trip_duration 10s` parses to the expected Config with
MinRequests left at zero, and each documented failure mode fails. -/
theorem UnmarshalCaddyfile_correct_witness :
    unmarshalStep zeroConfig ⟨"bogus", some "1"⟩ = Except.error "unrecognized subdirective: bogus" ∧
    unmarshalStep zeroConfig ⟨"threshold", none⟩ = Except.error argErrMsg ∧
    unmarshalStep zeroConfig ⟨"threshold", some "invalid"⟩ = Except.error "invalid threshold value: invalid" ∧
    unmarshalStep zeroConfig ⟨"trip_duration", some "invalid"⟩ = Except.error "invalid trip_duration: invalid" ∧
    unmarshalStep zeroConfig ⟨"min_requests", some "1.5"⟩ = Except.error "invalid min_requests value: 1.5" ∧
    unmarshalStep zeroConfig ⟨"threshold", some "0.7"⟩ = Except.ok { zeroConfig with Threshold := mkRat 7 10 } ∧
    unmarshalStep zeroConfig ⟨"factor", some "error_ratio"⟩ = Except.ok { zeroConfig with Factor := "error_ratio" } ∧
    unmarshalStep zeroConfig ⟨"trip_duration", some "10s"⟩ = Except.ok { zeroConfig with TripDuration := 10000000000 } ∧
    unmarshalStep zeroConfig ⟨"min_requests", some "25"⟩ = Except.ok { zeroConfig with MinRequests := 25 } ∧
    (∀ out : Config,
      UnmarshalCaddyfile zeroConfig
        [⟨"threshold", some "0.7"⟩, ⟨"factor", some "error_ratio"⟩, ⟨"trip_duration", some "10s"⟩]
        = Except.ok out → out.MinRequests = zeroConfig.MinRequests) := by
  refine ⟨UnmarshalCaddyfile_correct.1 zeroConfig ⟨"bogus", some "1"⟩ (by decide),
    UnmarshalCaddyfile_correct.2.1 zeroConfig "threshold" (by decide),
    UnmarshalCaddyfile_correct.2.2.1 zeroConfig "invalid" (by decide),
    UnmarshalCaddyfile_correct.2.2.2.1 zeroConfig "invalid" (by decide),
    UnmarshalCaddyfile_correct.2.2.2.2.1 zeroConfig "1.5" (by decide),
    UnmarshalCaddyfile_correct.2.2.2.2.2.1 zeroConfig "0.7" (mkRat 7 10) (by decide),
    UnmarshalCaddyfile_correct.2.2.2.2.2.2.1 zeroConfig "error_ratio",
    UnmarshalCaddyfile_correct.2.2.2.2.2.2.2.1 zeroConfig "10s" 10000000000 (by decide),
    UnmarshalCaddyfile_correct.2.2.2.2.2.2.2.2.1 zeroConfig "25" 25 (by decide),
    fun out h =>
      (UnmarshalCaddyfile_correct.2.2.2.2.2.2.2.2.2
        [⟨"threshold", some "0.7"⟩, ⟨"factor", some "error_ratio"⟩, ⟨"trip_duration", some "10s"⟩]
        out h).2.2.2 (by decide)⟩

end CircuitBreaker
